import Mathlib

/-!
Verification of the Trannergy PV inverter integration
(`custom_components/trannergy/`): a shallow embedding of the binary
protocol codec (`api.py`), the update coordinator (`coordinator.py`) and
the counter sensors' value presentation (`sensor.py`), with theorems about
the spec's claims.  Byte strings are modelled as `List Nat` (each entry a
byte value), Python floats as `ℚ` (all values arising here are small
integers divided by 1, 10 or 100, on which IEEE doubles are exact enough
that every comparison performed by the code agrees with the rational one).
-/

namespace Trannergy

/-! ### Byte-level readers (`api.py`: `_get_short`, `_get_long`, `_get_string`) -/

/-- Big-endian 16-bit unsigned integer at index `i` (as `struct.unpack "!H"`). -/
def u16at (m : List Nat) (i : Nat) : Nat :=
  256 * m.getD i 0 + m.getD (i + 1) 0

/-- Big-endian 32-bit unsigned integer at index `i` (as `struct.unpack "!I"`). -/
def u32at (m : List Nat) (i : Nat) : Nat :=
  16777216 * m.getD i 0 + 65536 * m.getD (i + 1) 0 + 256 * m.getD (i + 2) 0
    + m.getD (i + 3) 0

/-- `TrannergyInverterApi._get_short`: reads the u16 at `b`, divided by
`divider`; `None` when the message is empty/absent, the slice is shorter
than two bytes, or the raw value is the sentinel 65535. -/
def get_short (m : List Nat) (b : Nat) (divider : Nat) : Option ℚ :=
  if m.isEmpty then none
  else if b + 2 ≤ m.length then
    let num := u16at m b
    if num = 65535 then none else some ((num : ℚ) / divider)
  else none

/-- `TrannergyInverterApi._get_long`: reads the u32 at `b`, divided by
`divider`; `None` when the message is empty/absent or the slice is shorter
than four bytes.  No 65535 sentinel handling here. -/
def get_long (m : List Nat) (b : Nat) (divider : Nat) : Option ℚ :=
  if m.isEmpty then none
  else if b + 4 ≤ m.length then some ((u32at m b : ℚ) / divider)
  else none

/-- Strict UTF-8 decoding of a byte list into its code points, mirroring
CPython's `bytes.decode()` (rejects continuation-byte errors, overlong
encodings, surrogates and code points above U+10FFFF). -/
def utf8Decode : List Nat → Option (List Nat)
  | [] => some []
  | b :: rest =>
    if b < 0x80 then
      (utf8Decode rest).map (fun cs => b :: cs)
    else if b < 0xC2 then none
    else if b < 0xE0 then
      match rest with
      | c1 :: rest1 =>
        if 0x80 ≤ c1 ∧ c1 < 0xC0 then
          (utf8Decode rest1).map (fun cs => ((b - 0xC0) * 64 + (c1 - 0x80)) :: cs)
        else none
      | [] => none
    else if b < 0xF0 then
      match rest with
      | c1 :: c2 :: rest2 =>
        if (if b = 0xE0 then 0xA0 ≤ c1 ∧ c1 < 0xC0
            else if b = 0xED then 0x80 ≤ c1 ∧ c1 < 0xA0
            else 0x80 ≤ c1 ∧ c1 < 0xC0) ∧ 0x80 ≤ c2 ∧ c2 < 0xC0 then
          (utf8Decode rest2).map
            (fun cs => ((b - 0xE0) * 4096 + (c1 - 0x80) * 64 + (c2 - 0x80)) :: cs)
        else none
      | _ => none
    else if b < 0xF5 then
      match rest with
      | c1 :: c2 :: c3 :: rest3 =>
        if (if b = 0xF0 then 0x90 ≤ c1 ∧ c1 < 0xC0
            else if b = 0xF4 then 0x80 ≤ c1 ∧ c1 < 0x90
            else 0x80 ≤ c1 ∧ c1 < 0xC0) ∧ 0x80 ≤ c2 ∧ c2 < 0xC0
            ∧ 0x80 ≤ c3 ∧ c3 < 0xC0 then
          (utf8Decode rest3).map
            (fun cs => ((b - 0xF0) * 262144 + (c1 - 0x80) * 4096 + (c2 - 0x80) * 64
              + (c3 - 0x80)) :: cs)
        else none
      | _ => none
    else none

/-- Python's `str.strip("\x00")`: NUL code points removed from both ends. -/
def stripNuls (cs : List Nat) : List Nat :=
  ((cs.dropWhile (· == 0)).reverse.dropWhile (· == 0)).reverse

/-- `TrannergyInverterApi._get_string`: decodes `raw[b:e]` as UTF-8 and
strips NULs; `None` on an empty/absent message or a decode failure. -/
def get_string (m : List Nat) (b e : Nat) : Option (List Nat) :=
  if m.isEmpty then none
  else
    match utf8Decode ((m.drop b).take (e - b)) with
    | some cs => some (stripNuls cs)
    | none => none

/-- `TrannergyInverterApi._safe_float` (a `float` input never fails to
convert, so only the `None` substitution is visible). -/
def safe_float (v : Option ℚ) (default : ℚ) : ℚ :=
  v.getD default

/-! ### The measurement snapshot (`api.py`: `_parse_data`, `_get_offline_data`)

The parsed data dictionary always carries the same fixed key set, so it is
modelled as a structure.  `invertersn` is kept as the decoded code-point
list. -/

structure Snapshot where
  status : String
  actualpower : ℚ
  energytoday : ℚ
  energytotal : ℚ
  hourstotal : ℚ
  invertersn : List Nat
  temperature : ℚ
  dcinputvoltage1 : ℚ
  dcinputvoltage2 : ℚ
  dcinputvoltage3 : ℚ
  dcinputcurrent1 : ℚ
  dcinputcurrent2 : ℚ
  dcinputcurrent3 : ℚ
  acoutputvoltage1 : ℚ
  acoutputvoltage2 : ℚ
  acoutputvoltage3 : ℚ
  acoutputcurrent1 : ℚ
  acoutputcurrent2 : ℚ
  acoutputcurrent3 : ℚ
  acoutputfrequency1 : ℚ
  acoutputfrequency2 : ℚ
  acoutputfrequency3 : ℚ
  acoutputpower1 : ℚ
  acoutputpower2 : ℚ
  acoutputpower3 : ℚ
  deriving DecidableEq

/-- `TrannergyInverterApi._get_offline_data`: the canonical offline
snapshot — status `"Offline"`, serial `""`, every numeric field `0.0`. -/
def offline_data : Snapshot where
  status := "Offline"
  actualpower := 0
  energytoday := 0
  energytotal := 0
  hourstotal := 0
  invertersn := []
  temperature := 0
  dcinputvoltage1 := 0
  dcinputvoltage2 := 0
  dcinputvoltage3 := 0
  dcinputcurrent1 := 0
  dcinputcurrent2 := 0
  dcinputcurrent3 := 0
  acoutputvoltage1 := 0
  acoutputvoltage2 := 0
  acoutputvoltage3 := 0
  acoutputcurrent1 := 0
  acoutputcurrent2 := 0
  acoutputcurrent3 := 0
  acoutputfrequency1 := 0
  acoutputfrequency2 := 0
  acoutputfrequency3 := 0
  acoutputpower1 := 0
  acoutputpower2 := 0
  acoutputpower3 := 0

/-- `TrannergyInverterApi._parse_data`, applied to the stored raw message
(`none` models `self._raw_msg is None`).  Offsets and dividers are the
source's: the three channels `i = 1, 2, 3` of `dcinputvoltage` sit at
`33 + (i-1)*2`, `dcinputcurrent` at `39 + (i-1)*2`, `acoutputvoltage` at
`51 + (i-1)*2`, `acoutputcurrent` at `45 + (i-1)*2`, `acoutputfrequency`
at `57 + (i-1)*4` (divider 100) and `acoutputpower` at `59 + (i-1)*4`
(divider 1). -/
def parse_data (raw : Option (List Nat)) : Snapshot :=
  match raw with
  | none => offline_data
  | some m =>
    if m.length < 80 then offline_data
    else
      match get_short m 31 10 with
      | none => offline_data
      | some temperature =>
        if 150 < temperature then offline_data
        else
          { status := "Online"
            actualpower := safe_float (get_short m 59 1) 0
            energytoday := safe_float (get_short m 69 100) 0
            energytotal := safe_float (get_long m 71 10) 0
            hourstotal := safe_float (get_long m 75 1) 0
            invertersn := (get_string m 15 31).getD []
            temperature := safe_float (some temperature) 0
            dcinputvoltage1 := safe_float (get_short m 33 10) 0
            dcinputvoltage2 := safe_float (get_short m 35 10) 0
            dcinputvoltage3 := safe_float (get_short m 37 10) 0
            dcinputcurrent1 := safe_float (get_short m 39 10) 0
            dcinputcurrent2 := safe_float (get_short m 41 10) 0
            dcinputcurrent3 := safe_float (get_short m 43 10) 0
            acoutputvoltage1 := safe_float (get_short m 51 10) 0
            acoutputvoltage2 := safe_float (get_short m 53 10) 0
            acoutputvoltage3 := safe_float (get_short m 55 10) 0
            acoutputcurrent1 := safe_float (get_short m 45 10) 0
            acoutputcurrent2 := safe_float (get_short m 47 10) 0
            acoutputcurrent3 := safe_float (get_short m 49 10) 0
            acoutputfrequency1 := safe_float (get_short m 57 100) 0
            acoutputfrequency2 := safe_float (get_short m 61 100) 0
            acoutputfrequency3 := safe_float (get_short m 65 100) 0
            acoutputpower1 := safe_float (get_short m 59 1) 0
            acoutputpower2 := safe_float (get_short m 63 1) 0
            acoutputpower3 := safe_float (get_short m 67 1) 0 }

/-! ### Request generation (`api.py`: `_generate_request`) -/

/-- Big-endian hex digits of `n` with fuel, each digit in `0..15`. -/
def hexDigitsAux : Nat → Nat → List Nat
  | 0, _ => []
  | fuel + 1, n => if n = 0 then [] else hexDigitsAux fuel (n / 16) ++ [n % 16]

/-- The digits of Python's `hex(n)[2:]` for `n ≥ 0`: big-endian, no
leading zeros, and `hex(0)[2:] = "0"`. -/
def hexDigits (n : Nat) : List Nat :=
  if n = 0 then [0] else hexDigitsAux n n

/-- `bytearray.fromhex` on a digit list: pairs consecutive digits into
bytes, failing (`ValueError`) on an odd number of digits. -/
def fromhex : List Nat → Option (List Nat)
  | [] => some []
  | [_] => none
  | d1 :: d2 :: rest => (fromhex rest).map (fun bs => (16 * d1 + d2) :: bs)

/-- `TrannergyInverterApi._generate_request`: header `68 02 40 30`, the
reversed bytes of the doubled hex serial, `01 00`, one checksum byte and
trailer `16`.  `none` models the `ValueError` escaping from
`bytearray.fromhex`.  The checksum expression `hex(cs_count)[-2:]` takes
the last two characters of the hex literal; since `cs_count ≥ 115` always
has at least two hex digits, those are exactly its low byte. -/
def generate_request (serial : Nat) : Option (List Nat) :=
  let double_hex := hexDigits serial ++ hexDigits serial
  match fromhex double_hex with
  | none => none
  | some sb =>
    let serial_bytes := sb.reverse
    let cs_count := 115 + serial_bytes.sum
    let checksum := cs_count % 256
    some ([0x68, 0x02, 0x40, 0x30] ++ serial_bytes ++ [0x01, 0x00]
      ++ [checksum, 0x16])

/-! ### The update coordinator (`coordinator.py`:
`TrannergyDataUpdateCoordinator._async_update_data`)

`PRESERVE_WHEN_OFFLINE = {"energytotal", "hourstotal"}`; the mutable state
is `_last_valid_data` (restricted to those two keys) plus
`_inverter_online`.  A tick's input is the outcome of
`api.async_get_data()`: a parsed snapshot, a timeout, a connection error,
or any other exception.  A tick's output is `some` emitted snapshot, or
`none` for the re-raised `UpdateFailed`. -/

structure CoordState where
  last_energytotal : Option ℚ
  last_hourstotal : Option ℚ
  inverter_online : Bool
  deriving DecidableEq

inductive FetchResult where
  | success (data : Snapshot)
  | timeoutErr
  | connectionErr
  | unexpectedErr
  deriving DecidableEq

/-- `_get_offline_data_with_preserved_values` applied to an arbitrary base
snapshot: overwrite exactly `energytotal` and `hourstotal` with the
in-memory preserved values when present (the same overwrite loop also runs
on the parsed data in the offline branch of `_async_update_data`). -/
def withPreserved (st : CoordState) (d : Snapshot) : Snapshot :=
  { d with
    energytotal := match st.last_energytotal with
      | some v => v
      | none => d.energytotal
    hourstotal := match st.last_hourstotal with
      | some v => v
      | none => d.hourstotal }

/-- `_async_update_data`: one coordinator tick. -/
def update_data (st : CoordState) (r : FetchResult) : CoordState × Option Snapshot :=
  match r with
  | .success data =>
    if data.status = "Online" then
      ({ st with
          inverter_online := true
          last_energytotal :=
            if data.energytotal = 0 then st.last_energytotal else some data.energytotal
          last_hourstotal :=
            if data.hourstotal = 0 then st.last_hourstotal else some data.hourstotal },
        some data)
    else
      ({ st with inverter_online := false }, some (withPreserved st data))
  | .timeoutErr => ({ st with inverter_online := false }, some (withPreserved st offline_data))
  | .connectionErr => ({ st with inverter_online := false }, some (withPreserved st offline_data))
  | .unexpectedErr => (st, none)

/-- Coordinator state before the first tick when storage held nothing. -/
def initState : CoordState where
  last_energytotal := none
  last_hourstotal := none
  inverter_online := false

/-- A sequence of ticks: final state and the emitted outputs in order. -/
def run_updates (st : CoordState) : List FetchResult → CoordState × List (Option Snapshot)
  | [] => (st, [])
  | r :: rs =>
    let step := update_data st r
    let rest := run_updates step.1 rs
    (rest.1, step.2 :: rest.2)

/-! ### Counter sensor presentation (`sensor.py`: `TrannergySensor.native_value`)

Per `SENSOR_TYPES`, the keys with state class `TOTAL_INCREASING` are
exactly `energytotal` and `hourstotal`. -/

inductive CounterKey where
  | energytotal
  | hourstotal
  deriving DecidableEq

def counterValue (d : Snapshot) : CounterKey → ℚ
  | .energytotal => d.energytotal
  | .hourstotal => d.hourstotal

/-- `TrannergySensor.native_value` for a `TOTAL_INCREASING` sensor:
`None` when the coordinator has no data; otherwise `None` for a zero or
non-positive value, else the value itself (`float()` on a float never
raises). -/
def native_value_counter (data : Option Snapshot) (k : CounterKey) : Option ℚ :=
  match data with
  | none => none
  | some d =>
    let value := counterValue d k
    if value = 0 then none
    else if 0 < value then some value
    else none

/-! ### Helper lemmas: evaluating the parser -/

lemma isEmpty_false_of_ge {m : List Nat} (h : 80 ≤ m.length) : m.isEmpty = false := by
  cases m with
  | nil => simp at h
  | cons a t => rfl

lemma get_short_eq {m : List Nat} {b : Nat} (d : Nat)
    (h0 : m.isEmpty = false) (hb : b + 2 ≤ m.length) :
    get_short m b d
      = if u16at m b = 65535 then none else some ((u16at m b : ℚ) / d) := by
  simp [get_short, h0, hb]

lemma get_long_eq {m : List Nat} {b : Nat} (d : Nat)
    (h0 : m.isEmpty = false) (hb : b + 4 ≤ m.length) :
    get_long m b d = some ((u32at m b : ℚ) / d) := by
  simp [get_long, h0, hb]

lemma short_field {m : List Nat} {b : Nat} (d : Nat)
    (h0 : m.isEmpty = false) (hb : b + 2 ≤ m.length) :
    safe_float (get_short m b d) 0
      = if u16at m b = 65535 then 0 else (u16at m b : ℚ) / d := by
  rw [get_short_eq d h0 hb]
  split <;> simp [safe_float]

lemma long_field {m : List Nat} {b : Nat} (d : Nat)
    (h0 : m.isEmpty = false) (hb : b + 4 ≤ m.length) :
    safe_float (get_long m b d) 0 = (u32at m b : ℚ) / d := by
  rw [get_long_eq d h0 hb]; rfl

lemma parse_data_none : parse_data none = offline_data := rfl

lemma parse_data_short {m : List Nat} (h : m.length < 80) :
    parse_data (some m) = offline_data := by
  simp [parse_data, h]

lemma parse_data_sentinel {m : List Nat} (h80 : 80 ≤ m.length)
    (hs : u16at m 31 = 65535) :
    parse_data (some m) = offline_data := by
  have h0 := isEmpty_false_of_ge h80
  have hb : 31 + 2 ≤ m.length := by omega
  simp [parse_data, Nat.not_lt.mpr h80, get_short_eq 10 h0 hb, hs]

lemma parse_data_hot {m : List Nat} (h80 : 80 ≤ m.length)
    (hs : u16at m 31 ≠ 65535) (ht : (150 : ℚ) < (u16at m 31 : ℚ) / 10) :
    parse_data (some m) = offline_data := by
  have h0 := isEmpty_false_of_ge h80
  have hb : 31 + 2 ≤ m.length := by omega
  simp [parse_data, Nat.not_lt.mpr h80, get_short_eq 10 h0 hb, hs, ht]

lemma parse_data_online {m : List Nat} (h80 : 80 ≤ m.length)
    (hs : u16at m 31 ≠ 65535) (ht : ¬ (150 : ℚ) < (u16at m 31 : ℚ) / 10) :
    parse_data (some m) =
      { status := "Online"
        actualpower := safe_float (get_short m 59 1) 0
        energytoday := safe_float (get_short m 69 100) 0
        energytotal := safe_float (get_long m 71 10) 0
        hourstotal := safe_float (get_long m 75 1) 0
        invertersn := (get_string m 15 31).getD []
        temperature := (u16at m 31 : ℚ) / 10
        dcinputvoltage1 := safe_float (get_short m 33 10) 0
        dcinputvoltage2 := safe_float (get_short m 35 10) 0
        dcinputvoltage3 := safe_float (get_short m 37 10) 0
        dcinputcurrent1 := safe_float (get_short m 39 10) 0
        dcinputcurrent2 := safe_float (get_short m 41 10) 0
        dcinputcurrent3 := safe_float (get_short m 43 10) 0
        acoutputvoltage1 := safe_float (get_short m 51 10) 0
        acoutputvoltage2 := safe_float (get_short m 53 10) 0
        acoutputvoltage3 := safe_float (get_short m 55 10) 0
        acoutputcurrent1 := safe_float (get_short m 45 10) 0
        acoutputcurrent2 := safe_float (get_short m 47 10) 0
        acoutputcurrent3 := safe_float (get_short m 49 10) 0
        acoutputfrequency1 := safe_float (get_short m 57 100) 0
        acoutputfrequency2 := safe_float (get_short m 61 100) 0
        acoutputfrequency3 := safe_float (get_short m 65 100) 0
        acoutputpower1 := safe_float (get_short m 59 1) 0
        acoutputpower2 := safe_float (get_short m 63 1) 0
        acoutputpower3 := safe_float (get_short m 67 1) 0 } := by
  have h0 := isEmpty_false_of_ge h80
  have hb : 31 + 2 ≤ m.length := by omega
  simp [parse_data, Nat.not_lt.mpr h80, get_short_eq 10 h0 hb, hs, ht, safe_float]

/-- The parser's status is always `"Online"` or `"Offline"`, and an
`"Offline"` status forces the whole snapshot to be the offline one. -/
lemma parse_data_offline_of_status {raw : Option (List Nat)}
    (h : (parse_data raw).status ≠ "Online") :
    parse_data raw = offline_data := by
  match raw with
  | none => rfl
  | some m =>
    by_cases h80 : 80 ≤ m.length
    · by_cases hs : u16at m 31 = 65535
      · exact parse_data_sentinel h80 hs
      · by_cases ht : (150 : ℚ) < (u16at m 31 : ℚ) / 10
        · exact parse_data_hot h80 hs ht
        · exact absurd (by rw [parse_data_online h80 hs ht]) h
    · exact parse_data_short (by omega)

/-! ### Helper lemmas: individual parsed fields on the online path -/

lemma parse_status_online {m : List Nat} (h80 : 80 ≤ m.length)
    (hs : u16at m 31 ≠ 65535) (ht : ¬ (150 : ℚ) < (u16at m 31 : ℚ) / 10) :
    (parse_data (some m)).status = "Online" := by
  rw [parse_data_online h80 hs ht]

lemma parse_energytotal {m : List Nat} (h80 : 80 ≤ m.length)
    (hs : u16at m 31 ≠ 65535) (ht : ¬ (150 : ℚ) < (u16at m 31 : ℚ) / 10) :
    (parse_data (some m)).energytotal = (u32at m 71 : ℚ) / 10 := by
  rw [parse_data_online h80 hs ht]
  exact long_field 10 (isEmpty_false_of_ge h80) (by omega)

lemma parse_hourstotal {m : List Nat} (h80 : 80 ≤ m.length)
    (hs : u16at m 31 ≠ 65535) (ht : ¬ (150 : ℚ) < (u16at m 31 : ℚ) / 10) :
    (parse_data (some m)).hourstotal = (u32at m 75 : ℚ) / 1 := by
  rw [parse_data_online h80 hs ht]
  exact long_field 1 (isEmpty_false_of_ge h80) (by omega)

lemma parse_invertersn {m : List Nat} (h80 : 80 ≤ m.length)
    (hs : u16at m 31 ≠ 65535) (ht : ¬ (150 : ℚ) < (u16at m 31 : ℚ) / 10) :
    (parse_data (some m)).invertersn = (get_string m 15 31).getD [] := by
  rw [parse_data_online h80 hs ht]

/-- A zero u16 at offset 31 satisfies the liveness check. -/
lemma temp_ok_of_zero {m : List Nat} (h : u16at m 31 = 0) :
    u16at m 31 ≠ 65535 ∧ ¬ (150 : ℚ) < (u16at m 31 : ℚ) / 10 := by
  rw [h]; norm_num

/-! ### C3 -/

/-- C3: for a missing raw message, or any raw message shorter than 80
bytes, `_parse_data` returns exactly the canonical offline snapshot:
status `"Offline"`, inverter serial `""` and every numeric field `0.0`. -/
theorem c3_short_response_offline :
    parse_data none = offline_data ∧
    (∀ m : List Nat, m.length < 80 → parse_data (some m) = offline_data) ∧
    offline_data =
      ⟨"Offline", 0, 0, 0, 0, [], 0, 0, 0, 0, 0, 0, 0, 0, 0, 0, 0, 0, 0, 0, 0,
        0, 0, 0, 0⟩ :=
  ⟨parse_data_none, fun _ h => parse_data_short h, rfl⟩

/-- Witness for C3 at the 79-zero-byte response. -/
theorem c3_short_response_offline_witness :
    (List.replicate 79 0).length < 80 ∧
    parse_data (some (List.replicate 79 0)) = offline_data :=
  ⟨by decide, c3_short_response_offline.2.1 (List.replicate 79 0) (by decide)⟩

/-! ### C4 -/

/-- C4: on a raw message of at least 80 bytes, a u16 at offset 31 equal to
the sentinel 65535, or whose value divided by 10 exceeds 150, forces the
offline snapshot regardless of all other bytes; otherwise the snapshot is
`"Online"` with temperature equal to that value divided by 10. -/
theorem c4_liveness_check (m : List Nat) (h80 : 80 ≤ m.length) :
    ((u16at m 31 = 65535 ∨ (150 : ℚ) < (u16at m 31 : ℚ) / 10) →
      parse_data (some m) = offline_data) ∧
    (u16at m 31 ≠ 65535 → ¬ (150 : ℚ) < (u16at m 31 : ℚ) / 10 →
      (parse_data (some m)).status = "Online" ∧
      (parse_data (some m)).temperature = (u16at m 31 : ℚ) / 10) := by
  constructor
  · rintro (hs | ht)
    · exact parse_data_sentinel h80 hs
    · by_cases hs : u16at m 31 = 65535
      · exact parse_data_sentinel h80 hs
      · exact parse_data_hot h80 hs ht
  · intro hs ht
    refine ⟨parse_status_online h80 hs ht, ?_⟩
    rw [parse_data_online h80 hs ht]

/-- Witness for C4 at the 80-zero-byte response (temperature raw 0). -/
theorem c4_liveness_check_witness :
    (parse_data (some (List.replicate 80 0))).status = "Online" ∧
    (parse_data (some (List.replicate 80 0))).temperature
      = (u16at (List.replicate 80 0) 31 : ℚ) / 10 := by
  have h := temp_ok_of_zero (m := List.replicate 80 0) (by decide)
  exact (c4_liveness_check (List.replicate 80 0) (by decide)).2 h.1 h.2

/-! ### C6 -/

/-- C6: on a raw message of at least 80 bytes passing the liveness check,
every numeric field is read at its fixed offset: `energytotal` is the u32
at 71 divided by 10, `hourstotal` the u32 at 75 divided by 1, `energytoday`
the u16 at 69 divided by 100, `acoutputfrequency1..3` the u16s at 57, 61,
65 divided by 100, and so on for the whole field table, with any u16 equal
to 65535 substituted by 0.0. -/
theorem c6_field_offsets (m : List Nat) (h80 : 80 ≤ m.length)
    (hs : u16at m 31 ≠ 65535) (ht : ¬ (150 : ℚ) < (u16at m 31 : ℚ) / 10) :
    (parse_data (some m)).energytotal = (u32at m 71 : ℚ) / 10 ∧
    (parse_data (some m)).hourstotal = (u32at m 75 : ℚ) / 1 ∧
    (parse_data (some m)).energytoday
      = (if u16at m 69 = 65535 then 0 else (u16at m 69 : ℚ) / 100) ∧
    (parse_data (some m)).acoutputfrequency1
      = (if u16at m 57 = 65535 then 0 else (u16at m 57 : ℚ) / 100) ∧
    (parse_data (some m)).acoutputfrequency2
      = (if u16at m 61 = 65535 then 0 else (u16at m 61 : ℚ) / 100) ∧
    (parse_data (some m)).acoutputfrequency3
      = (if u16at m 65 = 65535 then 0 else (u16at m 65 : ℚ) / 100) ∧
    (parse_data (some m)).temperature = (u16at m 31 : ℚ) / 10 ∧
    (parse_data (some m)).actualpower
      = (if u16at m 59 = 65535 then 0 else (u16at m 59 : ℚ) / 1) ∧
    (parse_data (some m)).acoutputpower1
      = (if u16at m 59 = 65535 then 0 else (u16at m 59 : ℚ) / 1) ∧
    (parse_data (some m)).acoutputpower2
      = (if u16at m 63 = 65535 then 0 else (u16at m 63 : ℚ) / 1) ∧
    (parse_data (some m)).acoutputpower3
      = (if u16at m 67 = 65535 then 0 else (u16at m 67 : ℚ) / 1) ∧
    (parse_data (some m)).dcinputvoltage1
      = (if u16at m 33 = 65535 then 0 else (u16at m 33 : ℚ) / 10) ∧
    (parse_data (some m)).dcinputvoltage2
      = (if u16at m 35 = 65535 then 0 else (u16at m 35 : ℚ) / 10) ∧
    (parse_data (some m)).dcinputvoltage3
      = (if u16at m 37 = 65535 then 0 else (u16at m 37 : ℚ) / 10) ∧
    (parse_data (some m)).dcinputcurrent1
      = (if u16at m 39 = 65535 then 0 else (u16at m 39 : ℚ) / 10) ∧
    (parse_data (some m)).dcinputcurrent2
      = (if u16at m 41 = 65535 then 0 else (u16at m 41 : ℚ) / 10) ∧
    (parse_data (some m)).dcinputcurrent3
      = (if u16at m 43 = 65535 then 0 else (u16at m 43 : ℚ) / 10) ∧
    (parse_data (some m)).acoutputvoltage1
      = (if u16at m 51 = 65535 then 0 else (u16at m 51 : ℚ) / 10) ∧
    (parse_data (some m)).acoutputvoltage2
      = (if u16at m 53 = 65535 then 0 else (u16at m 53 : ℚ) / 10) ∧
    (parse_data (some m)).acoutputvoltage3
      = (if u16at m 55 = 65535 then 0 else (u16at m 55 : ℚ) / 10) ∧
    (parse_data (some m)).acoutputcurrent1
      = (if u16at m 45 = 65535 then 0 else (u16at m 45 : ℚ) / 10) ∧
    (parse_data (some m)).acoutputcurrent2
      = (if u16at m 47 = 65535 then 0 else (u16at m 47 : ℚ) / 10) ∧
    (parse_data (some m)).acoutputcurrent3
      = (if u16at m 49 = 65535 then 0 else (u16at m 49 : ℚ) / 10) := by
  have h0 := isEmpty_false_of_ge h80
  rw [parse_data_online h80 hs ht]
  refine ⟨long_field 10 h0 (by omega), long_field 1 h0 (by omega),
    short_field 100 h0 (by omega), short_field 100 h0 (by omega),
    short_field 100 h0 (by omega), short_field 100 h0 (by omega), rfl,
    short_field 1 h0 (by omega), short_field 1 h0 (by omega),
    short_field 1 h0 (by omega), short_field 1 h0 (by omega),
    short_field 10 h0 (by omega), short_field 10 h0 (by omega),
    short_field 10 h0 (by omega), short_field 10 h0 (by omega),
    short_field 10 h0 (by omega), short_field 10 h0 (by omega),
    short_field 10 h0 (by omega), short_field 10 h0 (by omega),
    short_field 10 h0 (by omega), short_field 10 h0 (by omega),
    short_field 10 h0 (by omega), short_field 10 h0 (by omega)⟩

/-- Witness for C6 at the 80-zero-byte response. -/
theorem c6_field_offsets_witness :
    (parse_data (some (List.replicate 80 0))).energytotal
      = (u32at (List.replicate 80 0) 71 : ℚ) / 10 ∧
    (parse_data (some (List.replicate 80 0))).hourstotal
      = (u32at (List.replicate 80 0) 75 : ℚ) / 1 := by
  have h := temp_ok_of_zero (m := List.replicate 80 0) (by decide)
  have hc := c6_field_offsets (List.replicate 80 0) (by decide) h.1 h.2
  exact ⟨hc.1, hc.2.1⟩

/-! ### C10 -/

/-- C10: on every input, the parsed snapshot satisfies
`actualpower = acoutputpower1` — both are the u16 at offset 59 divided by
1 on the online path, and both 0.0 in the offline snapshot. -/
theorem c10_actualpower_eq_acoutputpower1 (raw : Option (List Nat)) :
    (parse_data raw).actualpower = (parse_data raw).acoutputpower1 := by
  match raw with
  | none => rfl
  | some m =>
    by_cases h80 : 80 ≤ m.length
    · by_cases hs : u16at m 31 = 65535
      · rw [parse_data_sentinel h80 hs]; rfl
      · by_cases ht : (150 : ℚ) < (u16at m 31 : ℚ) / 10
        · rw [parse_data_hot h80 hs ht]; rfl
        · rw [parse_data_online h80 hs ht]
    · rw [parse_data_short (by omega)]; rfl

/-! ### Helper lemmas: the request builder -/

/-- `fromhex` succeeds on every even-length digit list. -/
lemma fromhex_total (ds : List Nat) (h : ds.length % 2 = 0) :
    ∃ bs, fromhex ds = some bs := by
  match ds with
  | [] => exact ⟨[], rfl⟩
  | [d] => simp at h
  | d1 :: d2 :: rest =>
    have h2 : rest.length % 2 = 0 := by
      simp [List.length_cons] at h
      omega
    obtain ⟨bs, hbs⟩ := fromhex_total rest h2
    exact ⟨(16 * d1 + d2) :: bs, by simp [fromhex, hbs]⟩

/-- The doubled hex string always has even length. -/
lemma doubled_length_even (s : Nat) :
    (hexDigits s ++ hexDigits s).length % 2 = 0 := by
  simp [List.length_append]
  omega

/-! ### C2 -/

/-- C2: for every serial number with even-length hex representation, the
request frame is the header `68 02 40 30`, then the reversed bytes of the
doubled hex serial, then `01 00`, then the checksum byte
`(115 + sum of the reversed serial bytes) % 256`, then the trailer `16`;
in particular it starts with `68 02 40 30` and ends with `16`. -/
theorem c2_request_frame (s : Nat) (h : (hexDigits s).length % 2 = 0) :
    ∃ sb req, fromhex (hexDigits s ++ hexDigits s) = some sb ∧
      generate_request s = some req ∧
      req = [0x68, 0x02, 0x40, 0x30] ++ sb.reverse ++ [0x01, 0x00]
        ++ [(115 + sb.reverse.sum) % 256, 0x16] ∧
      req.take 4 = [0x68, 0x02, 0x40, 0x30] ∧
      req.getLast? = some 0x16 := by
  obtain ⟨sb, hsb⟩ := fromhex_total _ (doubled_length_even s)
  have hreq : generate_request s
      = some ([0x68, 0x02, 0x40, 0x30] ++ sb.reverse ++ [0x01, 0x00]
          ++ [(115 + sb.reverse.sum) % 256, 0x16]) := by
    simp [generate_request, hsb]
  refine ⟨sb, _, hsb, hreq, rfl, rfl, ?_⟩
  rw [show [(115 + sb.reverse.sum) % 256, 0x16]
      = [(115 + sb.reverse.sum) % 256] ++ [0x16] from rfl,
    ← List.append_assoc]
  exact List.getLast?_concat _

/-- Witness for C2 at serial number 12345 (hex `3039`, even length). -/
theorem c2_request_frame_witness :
    (hexDigits 12345).length % 2 = 0 ∧
    (∃ sb req, fromhex (hexDigits 12345 ++ hexDigits 12345) = some sb ∧
      generate_request 12345 = some req ∧
      req = [0x68, 0x02, 0x40, 0x30] ++ sb.reverse ++ [0x01, 0x00]
        ++ [(115 + sb.reverse.sum) % 256, 0x16] ∧
      req.take 4 = [0x68, 0x02, 0x40, 0x30] ∧
      req.getLast? = some 0x16) :=
  ⟨by decide, c2_request_frame 12345 (by decide)⟩

/-! ### C7 -/

/-- C7 counterexample: serial 15 has the odd-length hex representation
`"f"`, yet `_generate_request` still produces a frame — the doubled hex
string `"ff"` has even length, so `bytearray.fromhex` does not raise. -/
theorem c7_counterexample :
    (hexDigits 15).length % 2 = 1 ∧
    generate_request 15 = some [0x68, 0x02, 0x40, 0x30, 0xFF, 0x01, 0x00, 0x72, 0x16] := by
  decide

/-- C7 as amended: `_generate_request` never fails — for every serial
number, odd-length hex representation included, the doubled hex string has
even length, so `bytearray.fromhex` succeeds and a frame is produced. -/
theorem c7_amended_never_fails (s : Nat) : ∃ req, generate_request s = some req := by
  obtain ⟨sb, hsb⟩ := fromhex_total _ (doubled_length_even s)
  refine ⟨[0x68, 0x02, 0x40, 0x30] ++ sb.reverse ++ [0x01, 0x00]
      ++ [(115 + sb.reverse.sum) % 256, 0x16], ?_⟩
  simp [generate_request, hsb]

/-! ### C8 -/

/-- What the spec's words describe: remove only the trailing NUL padding. -/
def stripTrailingNuls (cs : List Nat) : List Nat :=
  (cs.reverse.dropWhile (· == 0)).reverse

/-- Removing leading NULs, the other half of Python's two-sided strip. -/
def stripLeadingNuls (cs : List Nat) : List Nat :=
  cs.dropWhile (· == 0)

/-- An 80-byte response whose serial-number window starts with a NUL:
bytes 15..30 are `00 41 00 ... 00`, temperature raw value 0. -/
def c8raw : List Nat := List.replicate 15 0 ++ 0 :: 65 :: List.replicate 63 0

/-- C8 counterexample: on `c8raw` the code yields `invertersn = "A"`
(`[65]`), while removing exactly the trailing NUL padding from the decoded
window keeps the leading NUL (`[0, 65]`) — `str.strip("\x00")` strips both
ends. -/
theorem c8_counterexample :
    (parse_data (some c8raw)).invertersn = [65] ∧
    stripTrailingNuls ((utf8Decode ((c8raw.drop 15).take 16)).getD []) = [0, 65] ∧
    ([65] : List Nat) ≠ [0, 65] := by
  refine ⟨?_, by decide, by decide⟩
  have h := temp_ok_of_zero (m := c8raw) (by decide)
  rw [parse_invertersn (by decide) h.1 h.2]
  decide

/-- C8 as amended: on the online path, `invertersn` is the decoded text of
bytes 15..31 with NUL padding stripped from both ends (not only trailing);
a decode failure yields the empty string. -/
theorem c8_amended_strip_both (m : List Nat) (h80 : 80 ≤ m.length)
    (hs : u16at m 31 ≠ 65535) (ht : ¬ (150 : ℚ) < (u16at m 31 : ℚ) / 10) :
    (parse_data (some m)).invertersn
      = (utf8Decode ((m.drop 15).take 16)).elim []
          (fun cs => stripTrailingNuls (stripLeadingNuls cs)) := by
  rw [parse_invertersn h80 hs ht]
  have h0 := isEmpty_false_of_ge h80
  cases hu : utf8Decode ((m.drop 15).take 16) with
  | none => simp [get_string, h0, hu]
  | some cs =>
    simp [get_string, h0, hu, stripNuls, stripTrailingNuls, stripLeadingNuls]

/-- Witness for C8's amended statement at `c8raw`. -/
theorem c8_amended_strip_both_witness :
    80 ≤ c8raw.length ∧
    (parse_data (some c8raw)).invertersn
      = (utf8Decode ((c8raw.drop 15).take 16)).elim []
          (fun cs => stripTrailingNuls (stripLeadingNuls cs)) := by
  have h := temp_ok_of_zero (m := c8raw) (by decide)
  exact ⟨by decide, c8_amended_strip_both c8raw (by decide) h.1 h.2⟩

/-! ### C5 -/

/-- C5: when the tick gets a parsed result with status `"Offline"`, or the
transport raises a timeout or connection error, the coordinator does not
raise: it emits the offline snapshot with exactly `energytotal` and
`hourstotal` overwritten by the in-memory preserved values when present;
only an unexpected exception surfaces as an update failure (`none`). -/
theorem c5_offline_downgrade (st : CoordState) (raw : Option (List Nat))
    (hoff : (parse_data raw).status = "Offline") :
    (update_data st (.success (parse_data raw))).2
      = some (withPreserved st offline_data) ∧
    (update_data st .timeoutErr).2 = some (withPreserved st offline_data) ∧
    (update_data st .connectionErr).2 = some (withPreserved st offline_data) ∧
    (update_data st .unexpectedErr).2 = none := by
  have hdata : parse_data raw = offline_data :=
    parse_data_offline_of_status (by rw [hoff]; decide)
  have hno : ¬ (offline_data.status = "Online") := by decide
  rw [hdata]
  exact ⟨by simp [update_data, hno], rfl, rfl, rfl⟩

/-- Witness for C5 with a missing raw message and the fresh state. -/
theorem c5_offline_downgrade_witness :
    (update_data initState (.success (parse_data none))).2
      = some (withPreserved initState offline_data) ∧
    (update_data initState .timeoutErr).2
      = some (withPreserved initState offline_data) ∧
    (update_data initState .connectionErr).2
      = some (withPreserved initState offline_data) ∧
    (update_data initState .unexpectedErr).2 = none :=
  c5_offline_downgrade initState none rfl

/-! ### C9 -/

/-- C9: a `TOTAL_INCREASING` sensor (the counter-class fields
`energytotal`, `hourstotal`) reports "unknown" (`None`) whenever the
coordinator's data is absent or the value for its key is `0.0`, and it
never reports the number 0. -/
theorem c9_counter_never_zero (data : Option Snapshot) (k : CounterKey) :
    (data = none → native_value_counter data k = none) ∧
    (∀ d, data = some d → counterValue d k = 0
      → native_value_counter data k = none) ∧
    native_value_counter data k ≠ some 0 := by
  refine ⟨?_, ?_, ?_⟩
  · rintro rfl; rfl
  · rintro d rfl h
    simp [native_value_counter, h]
  · match data with
    | none => simp [native_value_counter]
    | some d =>
      simp only [native_value_counter]
      split_ifs with h1 h2
      · simp
      · simpa using h1
      · simp

/-- Witness for C9 at the offline snapshot's `energytotal`. -/
theorem c9_counter_never_zero_witness :
    native_value_counter none CounterKey.energytotal = none ∧
    native_value_counter (some offline_data) CounterKey.energytotal = none ∧
    native_value_counter (some offline_data) CounterKey.energytotal ≠ some 0 :=
  ⟨(c9_counter_never_zero none CounterKey.energytotal).1 rfl,
    (c9_counter_never_zero (some offline_data) CounterKey.energytotal).2.1
      offline_data rfl rfl,
    (c9_counter_never_zero (some offline_data) CounterKey.energytotal).2.2⟩

/-! ### C1 -/

/-- The in-memory preserved values hold no zero. -/
def storedNonzero (st : CoordState) : Prop :=
  (∀ v, st.last_energytotal = some v → v ≠ 0) ∧
  (∀ v, st.last_hourstotal = some v → v ≠ 0)

/-- Online response with lifetime-energy raw u32 1000 (→ 100.0 kWh). -/
def c1raw1 : List Nat := List.replicate 71 0 ++ [0, 0, 3, 232] ++ List.replicate 5 0

/-- Online response with lifetime-energy raw u32 500 (→ 50.0 kWh). -/
def c1raw2 : List Nat := List.replicate 71 0 ++ [0, 0, 1, 244] ++ List.replicate 5 0

/-- Online response with lifetime-energy raw u32 0 (→ 0.0 kWh). -/
def c1raw3 : List Nat := List.replicate 80 0

/-- C1 counterexample: three online ticks whose parsed `energytotal`
values are 100, 50 and 0.  After the non-zero 100 is recorded, the
coordinator still emits the decrease 50 and then 0.0, and the stored
preserved value is overwritten with the decrease 50. -/
theorem c1_counterexample :
    ((run_updates initState
        [FetchResult.success (parse_data (some c1raw1)),
          FetchResult.success (parse_data (some c1raw2)),
          FetchResult.success (parse_data (some c1raw3))]).2.map
      (fun o => o.map Snapshot.energytotal)) = [some 100, some 50, some 0] ∧
    (run_updates initState
        [FetchResult.success (parse_data (some c1raw1)),
          FetchResult.success (parse_data (some c1raw2)),
          FetchResult.success (parse_data (some c1raw3))]).1.last_energytotal
      = some 50 ∧
    (50 : ℚ) < 100 ∧ (100 : ℚ) ≠ 0 := by
  have t1 := temp_ok_of_zero (m := c1raw1) (by decide)
  have t2 := temp_ok_of_zero (m := c1raw2) (by decide)
  have t3 := temp_ok_of_zero (m := c1raw3) (by decide)
  have s1 := parse_status_online (m := c1raw1) (by decide) t1.1 t1.2
  have s2 := parse_status_online (m := c1raw2) (by decide) t2.1 t2.2
  have s3 := parse_status_online (m := c1raw3) (by decide) t3.1 t3.2
  have e1 : (parse_data (some c1raw1)).energytotal = 100 := by
    rw [parse_energytotal (by decide) t1.1 t1.2,
      show u32at c1raw1 71 = 1000 from by decide]
    norm_num
  have e2 : (parse_data (some c1raw2)).energytotal = 50 := by
    rw [parse_energytotal (by decide) t2.1 t2.2,
      show u32at c1raw2 71 = 500 from by decide]
    norm_num
  have e3 : (parse_data (some c1raw3)).energytotal = 0 := by
    rw [parse_energytotal (by decide) t3.1 t3.2,
      show u32at c1raw3 71 = 0 from by decide]
    norm_num
  have hh1 : (parse_data (some c1raw1)).hourstotal = 0 := by
    rw [parse_hourstotal (by decide) t1.1 t1.2,
      show u32at c1raw1 75 = 0 from by decide]
    norm_num
  have hh2 : (parse_data (some c1raw2)).hourstotal = 0 := by
    rw [parse_hourstotal (by decide) t2.1 t2.2,
      show u32at c1raw2 75 = 0 from by decide]
    norm_num
  have hh3 : (parse_data (some c1raw3)).hourstotal = 0 := by
    rw [parse_hourstotal (by decide) t3.1 t3.2,
      show u32at c1raw3 75 = 0 from by decide]
    norm_num
  have n100 : ((100 : ℚ) = 0) = False := eq_false (by norm_num)
  have n50 : ((50 : ℚ) = 0) = False := eq_false (by norm_num)
  refine ⟨?_, ?_, by norm_num, by norm_num⟩ <;>
    simp [run_updates, update_data, initState, s1, s2, s3, e1, e2, e3,
      hh1, hh2, hh3, n100, n50]

/-- C1 as amended: the stored preserved values are never overwritten with
zero, and on every tick that does not settle online (parsed status not
`"Online"`, timeout, connection error) the emitted snapshot carries the
stored preserved value — hence a non-zero, non-decreasing reading — for
each preserved key that has one.  (On online ticks the parsed snapshot is
emitted as-is, which the counterexample shows may be zero or a
decrease.) -/
theorem c1_amended_offline_preservation (st : CoordState) (r : FetchResult)
    (hst : storedNonzero st) :
    storedNonzero (update_data st r).1 ∧
    (∀ snap, (update_data st r).2 = some snap → snap.status ≠ "Online" →
      (∀ v, st.last_energytotal = some v → snap.energytotal = v ∧ v ≠ 0) ∧
      (∀ v, st.last_hourstotal = some v → snap.hourstotal = v ∧ v ≠ 0)) := by
  obtain ⟨he, hh⟩ := hst
  match r with
  | .success data =>
    by_cases hon : data.status = "Online"
    · have hu : update_data st (.success data)
          = (⟨if data.energytotal = 0 then st.last_energytotal
                else some data.energytotal,
              if data.hourstotal = 0 then st.last_hourstotal
                else some data.hourstotal,
              true⟩,
            some data) := by
        simp [update_data, hon]
      rw [hu]
      refine ⟨⟨?_, ?_⟩, ?_⟩
      · intro v hv
        dsimp only at hv
        split at hv
        · exact he v hv
        · next hne =>
            rw [← Option.some_inj.mp hv]
            exact hne
      · intro v hv
        dsimp only at hv
        split at hv
        · exact hh v hv
        · next hne =>
            rw [← Option.some_inj.mp hv]
            exact hne
      · intro snap hsnap hsts
        have hds : data = snap := Option.some_inj.mp hsnap
        rw [← hds] at hsts
        exact absurd hon hsts
    · have hu : update_data st (.success data)
          = (⟨st.last_energytotal, st.last_hourstotal, false⟩,
            some (withPreserved st data)) := by
        simp [update_data, hon]
      rw [hu]
      refine ⟨⟨he, hh⟩, ?_⟩
      intro snap hsnap _
      have hds : withPreserved st data = snap := Option.some_inj.mp hsnap
      refine ⟨fun v hv => ?_, fun v hv => ?_⟩
      · rw [← hds]
        exact ⟨by simp [withPreserved, hv], he v hv⟩
      · rw [← hds]
        exact ⟨by simp [withPreserved, hv], hh v hv⟩
  | .timeoutErr =>
    refine ⟨⟨he, hh⟩, ?_⟩
    intro snap hsnap _
    simp only [update_data, Option.some_inj] at hsnap
    refine ⟨fun v hv => ?_, fun v hv => ?_⟩
    · rw [← hsnap]
      exact ⟨by simp [withPreserved, hv], he v hv⟩
    · rw [← hsnap]
      exact ⟨by simp [withPreserved, hv], hh v hv⟩
  | .connectionErr =>
    refine ⟨⟨he, hh⟩, ?_⟩
    intro snap hsnap _
    simp only [update_data, Option.some_inj] at hsnap
    refine ⟨fun v hv => ?_, fun v hv => ?_⟩
    · rw [← hsnap]
      exact ⟨by simp [withPreserved, hv], he v hv⟩
    · rw [← hsnap]
      exact ⟨by simp [withPreserved, hv], hh v hv⟩
  | .unexpectedErr =>
    exact ⟨⟨he, hh⟩, fun snap hsnap => by simp [update_data] at hsnap⟩

/-- Witness for C1's amended statement: preserved state `(100, 42)` and a
timeout tick. -/
theorem c1_amended_offline_preservation_witness :
    storedNonzero ⟨some 100, some 42, true⟩ ∧
    (storedNonzero (update_data ⟨some 100, some 42, true⟩ .timeoutErr).1 ∧
      (∀ snap, (update_data ⟨some 100, some 42, true⟩ .timeoutErr).2 = some snap →
        snap.status ≠ "Online" →
        (∀ v, (⟨some 100, some 42, true⟩ : CoordState).last_energytotal = some v →
          snap.energytotal = v ∧ v ≠ 0) ∧
        (∀ v, (⟨some 100, some 42, true⟩ : CoordState).last_hourstotal = some v →
          snap.hourstotal = v ∧ v ≠ 0))) := by
  have hst : storedNonzero ⟨some 100, some 42, true⟩ :=
    ⟨fun v hv => by rw [← Option.some_inj.mp hv]; norm_num,
      fun v hv => by rw [← Option.some_inj.mp hv]; norm_num⟩
  exact ⟨hst, c1_amended_offline_preservation ⟨some 100, some 42, true⟩ .timeoutErr hst⟩

end Trannergy
